import Mathlib

/-!
Verification of `src/prefect/cli/dev.py` (the `prefect dev` command group).

The development shallow-embeds the commands of `dev.py` as Lean functions:

* process environments are functions `String → Option String`; the CPython
  semantics of `os.environ.copy()` / `env[k] = v` / `subprocess` with and
  without an `env` keyword are embedded directly;
* the sequential shell-outs of `build_ui` and `ui` become command traces
  parameterised by the exit codes of the external tools, with
  `subprocess.check_output` raising (an `Option Nat` error component) on a
  non-zero exit;
* the filesystem effect of `build_ui`'s copy phase (`shutil.rmtree` /
  `shutil.copytree`) is a state transformer on the static-UI directory;
* `build_docs` acts on the top-level keys of the OpenAPI schema, embedded as
  an association list of JSON values with CPython dict-assignment semantics;
* the `start` command's `anyio.create_task_group()` block is embedded as an
  operational model of anyio's structured-concurrency semantics over the two
  units it starts: the group returns only once every started task is in a
  terminal state, and a task raising an exception cancels and awaits its
  sibling before the group re-raises.

Pieces of the repository that `dev.py` calls but that are outside the given
source (`start_orion`, `open_process_and_stream_output`, the CLI exit-status
mapping of `prefect.cli.base`) are modelled from the specification and marked
as such in their doc comments.
-/

/-! ### Process environments (`os.environ`, `subprocess(..., env=...)`) -/

/-- A process environment: a partial map from variable names to values. -/
def Env : Type := String → Option String

/-- CPython dict assignment `e[k] = v` on an environment
(after `os.environ.copy()`, so the original is unaffected). -/
def envSet (e : Env) (k v : String) : Env :=
  fun k' => if k' = k then some v else e k'

/-- The environment passed to `npm run build` in `build_ui`
(dev.py lines 74-76): `env = os.environ.copy(); env["ORION_UI_SERVE_BASE"] = "/"`. -/
def build_ui_env (osEnviron : Env) : Env :=
  envSet osEnviron "ORION_UI_SERVE_BASE" "/"

/-- Environment received by a spawned child process: the `env` keyword
argument when one is given, otherwise the inherited parent environment
(CPython `subprocess` / `anyio.open_process` semantics). -/
def spawnedEnv (inherited : Env) (envArg : Option Env) : Env :=
  envArg.getD inherited

/-- Environment of the `npm run build` child spawned by `build_ui`
(dev.py line 76: `subprocess.check_output(["npm", "run", "build"], env=env)`). -/
def build_ui_build_child_env (osEnviron : Env) : Env :=
  spawnedEnv osEnviron (some (build_ui_env osEnviron))

/-- Environment of the `npm run serve` watch child spawned by the `ui`
command (dev.py line 100): `open_process_and_stream_output` is called with
the command only, no `env` keyword, so the child inherits the invoking
environment unchanged. -/
def ui_serve_child_env (osEnviron : Env) : Env :=
  spawnedEnv osEnviron none

/-- A small concrete invoking environment used to evaluate the theorems:
`PATH` is set, `ORION_UI_SERVE_BASE` is not. -/
def sampleEnv : Env :=
  fun k => if k = "PATH" then some "/usr/bin" else none

/-! ### Command traces of the sequential shell-outs -/

/-- The external tool invocations appearing in `dev.py`. -/
inductive Cmd where
  | npmInstall
  | npmCiInstall
  | npmRunBuild
  | npmRunServe
deriving DecidableEq, Repr

/-- The `ui` command (dev.py lines 88-100): `subprocess.check_output(["npm",
"install"])` runs synchronously and raises `CalledProcessError` with the
tool's exit code when it is non-zero; only on success is the watch process
`npm run serve` started.  The result is the ordered trace of launched
commands together with the raised error code, if any. -/
def ui_run (installExit : Nat) : List Cmd × Option Nat :=
  if installExit = 0 then
    ([Cmd.npmInstall, Cmd.npmRunServe], none)
  else
    ([Cmd.npmInstall], some installExit)

/-- The shell-out sequence of `build_ui` (dev.py lines 65-85): `npm ci
install` then `npm run build`, each via `subprocess.check_output`, which
raises `CalledProcessError` carrying the tool's exit code on a non-zero
exit, aborting the remaining steps. -/
def build_ui_run (ciExit buildExit : Nat) : List Cmd × Option Nat :=
  if ciExit = 0 then
    if buildExit = 0 then
      ([Cmd.npmCiInstall, Cmd.npmRunBuild], none)
    else
      ([Cmd.npmCiInstall, Cmd.npmRunBuild], some buildExit)
  else
    ([Cmd.npmCiInstall], some ciExit)

/-- Modelled from the spec: the CLI surface's exit-status mapping (it lives
in `prefect.cli.base` / typer wiring, not under the given source).  The spec
says a one-shot command reports "exit code 0 on success, non-zero (matching
the underlying tool's code where available) on failure"; a raised
`CalledProcessError` with code `c` therefore becomes process exit status
`c`, and no raised error becomes status `0`. -/
def cliExitStatus (raised : Option Nat) : Nat :=
  raised.getD 0

/-- Exit status of a `prefect dev build-ui` invocation as a function of the
two tools' exit codes. -/
def build_ui_exit_status (ciExit buildExit : Nat) : Nat :=
  cliExitStatus (build_ui_run ciExit buildExit).2

/-! ### Filesystem effect of `build_ui`'s copy phase -/

/-- The slice of filesystem state `build_ui`'s copy phase touches: the
static-UI target directory (`prefect.__ui_static_path__`; `none` when it
does not exist) and the freshly built `orion-ui/dist` directory, each as a
list of contained file names. -/
structure FsState where
  staticDir : Option (List String)
  distDir : List String
deriving DecidableEq, Repr

/-- `shutil.copytree(src, dst)`: raises `FileExistsError` when the target
already exists, otherwise creates the target as a copy of the source. -/
def copytree_to_static (s : FsState) : Except String FsState :=
  match s.staticDir with
  | some _ => Except.error "FileExistsError"
  | none => Except.ok { s with staticDir := some s.distDir }

/-- The copy phase of `build_ui` (dev.py lines 78-83): if the static path
exists, `shutil.rmtree` deletes it in its entirety; then
`shutil.copytree("orion-ui/dist", static)` copies the fresh build in.  The
`Bool` records whether a deletion was performed. -/
def build_ui_copy_phase (s : FsState) : Except String (FsState × Bool) :=
  let existed := s.staticDir.isSome
  let s1 := if existed then { s with staticDir := none } else s
  (copytree_to_static s1).map (fun s2 => (s2, existed))

/-! ### `build_docs`: OpenAPI schema transform and target path -/

/-- A JSON value, as produced by `json.dump` of the OpenAPI schema dict.
Objects are association lists in insertion order. -/
inductive JVal where
  | obj : List (String × JVal) → JVal
  | str : String → JVal
  | num : Int → JVal
  | bool : Bool → JVal
  | null : JVal
  | arr : List JVal → JVal

/-- First value bound to key `k` in a JSON object's entry list
(CPython dict lookup; dicts never hold a key twice). -/
def dictGet (d : List (String × JVal)) (k : String) : Option JVal :=
  (d.find? (fun p => p.1 == k)).map (fun p => p.2)

/-- CPython dict assignment `d[k] = v` on an entry list: an existing key
keeps its insertion position and gets the new value; a fresh key is
appended. -/
def dictSet (d : List (String × JVal)) (k : String) (v : JVal) : List (String × JVal) :=
  if d.any (fun p => p.1 == k) then
    d.map (fun p => if p.1 == k then (k, v) else p)
  else
    d ++ [(k, v)]

/-- The document `build_docs` writes to disk (dev.py lines 49-51): the
generated OpenAPI schema with `schema["info"] = {}` applied before
`json.dump`. -/
def build_docs_written (schema : List (String × JVal)) : List (String × JVal) :=
  dictSet schema "info" (JVal.obj [])

/-- The path `build_docs` writes to (dev.py lines 45-48): the `schema_path`
argument when it is truthy, else `docs/api-ref/schema.json` under the
project root (`prefect.__root_path__`, abstracted as a string).  `if not
schema_path:` is satisfied both by the `None` default and by an empty
string. -/
def build_docs_path (root : String) (schemaPath : Option String) : String :=
  match schemaPath with
  | none => root ++ "/docs/api-ref/schema.json"
  | some p => if p = "" then root ++ "/docs/api-ref/schema.json" else p

/-- A tiny concrete OpenAPI schema used to evaluate the theorems. -/
def sampleSchema : List (String × JVal) :=
  [("openapi", JVal.str "3.0.2"),
   ("info", JVal.obj [("title", JVal.str "Prefect Orion"), ("version", JVal.str "2.0a5")]),
   ("paths", JVal.obj [])]

/-! ### The `start` session: anyio task group over two units

`start` (dev.py lines 103-114) runs

  async with anyio.create_task_group() as tg:
      tg.start_soon(partial(start_orion, ui=False, agent=agent))
      tg.start_soon(ui)

The block below is an operational model of anyio's structured-concurrency
semantics for a group of two tasks, each abstracted to its observable
behaviour: it either runs indefinitely (a healthy watch process) or reaches
completion at some instant, by returning normally or by raising an
exception carrying an exit code.  Per anyio's documented semantics the
`async with` block exit awaits all started tasks; when a task raises, the
group cancels every other still-running task and awaits it before
re-raising, and when tasks raise simultaneously one exception is surfaced
and the others are swallowed. -/

/-- How a unit's body ends: a normal return, or an exception carrying the
failing exit code. -/
inductive UnitResult where
  | success
  | failure (code : Nat)
deriving DecidableEq, Repr

/-- Observable behaviour of one unit of the task group: it either never
completes on its own, or completes at instant `t` with a result. -/
inductive UnitBehavior where
  | runsForever
  | completes (t : Nat) (r : UnitResult)
deriving DecidableEq, Repr

/-- Terminal (or not) state of a unit. -/
inductive UnitFinal where
  | running
  | succeeded
  | failed (code : Nat)
  | cancelled
deriving DecidableEq, Repr

/-- The instant and code at which a behaviour raises, if it ever does. -/
def failsAt : UnitBehavior → Option (Nat × Nat)
  | UnitBehavior.completes t (UnitResult.failure c) => some (t, c)
  | _ => none

/-- Final state of the sibling of a unit that raised at instant `t`: a
sibling already completed by `t` keeps its own outcome; a sibling still
running at `t` (or running forever) is cancelled and awaited. -/
def siblingFinal (t : Nat) : UnitBehavior → UnitFinal
  | UnitBehavior.runsForever => UnitFinal.cancelled
  | UnitBehavior.completes t' UnitResult.success =>
      if t' ≤ t then UnitFinal.succeeded else UnitFinal.cancelled
  | UnitBehavior.completes t' (UnitResult.failure c) =>
      if t' ≤ t then UnitFinal.failed c else UnitFinal.cancelled

/-- What the group hands back when the `async with` block exits: the final
state of each unit and, when a unit raised, the surfaced error as (unit
index, exit code) with index 1 the first `start_soon` argument. -/
structure GroupReturn where
  final1 : UnitFinal
  final2 : UnitFinal
  err : Option (Nat × Nat)
deriving DecidableEq, Repr

/-- Run of an anyio task group over two unit behaviours.  `none` means the
block never exits: no unit raised and at least one unit is still running,
so the group keeps waiting.  `some g` means the block exited with the
recorded final states and surfaced error; on simultaneous failures the
first unit's error is surfaced and the other swallowed. -/
def groupRun (b1 b2 : UnitBehavior) : Option GroupReturn :=
  match failsAt b1, failsAt b2 with
  | none, none =>
    match b1, b2 with
    | UnitBehavior.completes _ _, UnitBehavior.completes _ _ =>
        some ⟨UnitFinal.succeeded, UnitFinal.succeeded, none⟩
    | _, _ => none
  | some (t1, c1), none =>
    some ⟨UnitFinal.failed c1, siblingFinal t1 b2, some (1, c1)⟩
  | none, some (t2, c2) =>
    some ⟨siblingFinal t2 b1, UnitFinal.failed c2, some (2, c2)⟩
  | some (t1, c1), some (t2, c2) =>
    if t1 ≤ t2 then
      some ⟨UnitFinal.failed c1, siblingFinal t1 b2, some (1, c1)⟩
    else
      some ⟨siblingFinal t2 b1, UnitFinal.failed c2, some (2, c2)⟩

/-- The `start` command's task group (dev.py lines 112-114): unit 1 is
`partial(start_orion, ui=False, agent=agent)`, unit 2 is `ui`, with their
runtime behaviours abstracted as `UnitBehavior`s. -/
def start_session (serverB uiB : UnitBehavior) : Option GroupReturn :=
  groupRun serverB uiB

/-- Kind of a unit of the `start` task group. -/
inductive UnitKind where
  | server
  | uiWatch
deriving DecidableEq, Repr

/-- A unit handed to `tg.start_soon` by `start` (dev.py lines 112-114):
either `partial(start_orion, ui=False, agent=agent)` with the two keyword
arguments it closes over, or the `ui` coroutine. -/
inductive SessionUnit where
  | serverUnit (ui : Bool) (agent : Bool)
  | uiUnit
deriving DecidableEq, Repr

/-- The units `start` hands to its task group, in `start_soon` order
(dev.py lines 112-114), as a function of the `agent` CLI option. -/
def start_units (agent : Bool) : List SessionUnit :=
  [SessionUnit.serverUnit false agent, SessionUnit.uiUnit]

/-- Kind of a session unit. -/
def unit_kind : SessionUnit → UnitKind
  | SessionUnit.serverUnit _ _ => UnitKind.server
  | SessionUnit.uiUnit => UnitKind.uiWatch

/-- Modelled from the spec: `start_orion` (`prefect/cli/orion.py`, not under
the given source) accepts "a boolean option controlling whether an auxiliary
companion process (e.g., an agent) is also launched alongside the server
unit" — the server unit spawns the agent process exactly when its `agent`
flag is true; the UI unit never does. -/
def unit_spawns_agent : SessionUnit → Bool
  | SessionUnit.serverUnit _ a => a
  | SessionUnit.uiUnit => false

/-- What the operator sees when a unit of the dev session fails. -/
structure FailureReport where
  failedUnit : String
  failedExitCode : Nat
  exitStatus : Nat
deriving DecidableEq, Repr

/-- Name of the unit with the given task-group index (1 = server, 2 = UI). -/
def unitName (i : Nat) : String :=
  if i = 1 then "server" else "ui"

/-- Modelled from the spec: "the session prints which unit failed and with
what exit code, then exits the whole tool with a non-zero status reflecting
that failure" — the reporting and process-exit path lives in
`prefect.cli.base` / `prefect.cli.orion`, not under the given source.  The
printed report names the failing unit and its exit code, and the tool's own
exit status is that code (or 1 when the failure carried code 0). -/
def reportFailure (i c : Nat) : FailureReport :=
  { failedUnit := unitName i
    failedExitCode := c
    exitStatus := if c = 0 then 1 else c }

/-- A whole `prefect dev start` invocation: run the session's task group;
when it surfaces a unit failure, the failure is reported.  `none` covers
both a session that never returns and a session that returns without a
surfaced failure. -/
def start_main (serverB uiB : UnitBehavior) : Option FailureReport :=
  (start_session serverB uiB).bind
    (fun g => g.err.map (fun ic => reportFailure ic.1 ic.2))

/-! ### Theorems -/

/-- Claim C3: when `build_ui` launches `npm run build` with its environment
override, the spawned child's environment is the inherited environment with
the override applied — the overridden variable `ORION_UI_SERVE_BASE` has the
override's value `"/"`, and every inherited variable not overridden is
present with its inherited value, unchanged. -/
theorem c3_build_ui_merged_env (osEnviron : Env) (k : String)
    (h : k ≠ "ORION_UI_SERVE_BASE") :
    build_ui_build_child_env osEnviron "ORION_UI_SERVE_BASE" = some "/" ∧
    build_ui_build_child_env osEnviron k = osEnviron k := by
  constructor
  · simp [build_ui_build_child_env, spawnedEnv, build_ui_env, envSet]
  · simp [build_ui_build_child_env, spawnedEnv, build_ui_env, envSet, h]

/-- Concrete run of claim C3's theorem: with the sample invoking
environment, the `npm run build` child sees the override and sees `PATH`
unchanged. -/
theorem c3_witness :
    ("PATH" : String) ≠ "ORION_UI_SERVE_BASE" ∧
    (build_ui_build_child_env sampleEnv "ORION_UI_SERVE_BASE" = some "/" ∧
     build_ui_build_child_env sampleEnv "PATH" = sampleEnv "PATH") :=
  ⟨by decide, c3_build_ui_merged_env sampleEnv "PATH" (by decide)⟩

/-- Claim C4 fails as stated: the `ui` command starts the watch process with
`open_process_and_stream_output(command=["npm", "run", "serve"])` (dev.py
line 100), passing no environment override, so when the invoking environment
(here `sampleEnv`) does not define `ORION_UI_SERVE_BASE`, the watch child's
environment does not contain it either — contradicting "the environment of
the UI watch process started by the `ui` command contains this override". -/
theorem c4_counterexample :
    ui_serve_child_env sampleEnv "ORION_UI_SERVE_BASE" = none := rfl

/-- Claim C4 amended: the `ORION_UI_SERVE_BASE` override is applied only to
the `npm run build` child of `build_ui`; the watch process started by the
`ui` command inherits the invoking environment completely unchanged (so it
contains the override only if the invoking environment already did). -/
theorem c4_override_only_in_build (osEnviron : Env) :
    (∀ k, ui_serve_child_env osEnviron k = osEnviron k) ∧
    build_ui_build_child_env osEnviron "ORION_UI_SERVE_BASE" = some "/" := by
  constructor
  · intro k; rfl
  · simp [build_ui_build_child_env, spawnedEnv, build_ui_env, envSet]

/-- Claim C5: in the `ui` command, `npm install` runs synchronously to
completion before `npm run serve` is started; on a non-zero install exit a
`CalledProcessError` carrying that code is raised and the watch process is
never started. -/
theorem c5_install_before_serve (installExit : Nat) (h : installExit ≠ 0) :
    (ui_run 0).1 = [Cmd.npmInstall, Cmd.npmRunServe] ∧
    (ui_run 0).2 = none ∧
    (ui_run installExit).2 = some installExit ∧
    Cmd.npmRunServe ∉ (ui_run installExit).1 := by
  refine ⟨rfl, rfl, ?_, ?_⟩ <;> simp [ui_run, h]

/-- Concrete run of claim C5's theorem at install exit code 2. -/
theorem c5_witness :
    (2 : Nat) ≠ 0 ∧
    ((ui_run 0).1 = [Cmd.npmInstall, Cmd.npmRunServe] ∧
     (ui_run 0).2 = none ∧
     (ui_run 2).2 = some 2 ∧
     Cmd.npmRunServe ∉ (ui_run 2).1) :=
  ⟨by decide, c5_install_before_serve 2 (by decide)⟩

/-- Claim C6: `build_ui` runs its tool invocations synchronously (first
`npm ci install`, then `npm run build`) and the invocation's exit status is
0 exactly when both steps succeed; when a step fails, the exit status is
that failing tool's exit code. -/
theorem c6_build_ui_exit (ciExit buildExit : Nat) :
    (build_ui_run 0 0).1 = [Cmd.npmCiInstall, Cmd.npmRunBuild] ∧
    build_ui_exit_status ciExit buildExit = (if ciExit = 0 then buildExit else ciExit) ∧
    (build_ui_exit_status ciExit buildExit = 0 ↔ (ciExit = 0 ∧ buildExit = 0)) := by
  rcases eq_or_ne ciExit 0 with h1 | h1 <;>
    rcases eq_or_ne buildExit 0 with h2 | h2 <;>
      simp [build_ui_exit_status, build_ui_run, cliExitStatus, h1, h2]

/-- Claim C7: `start` hands its task group exactly two units — the server
unit and the UI unit, in that order — and forwards the boolean `agent`
option to the server unit, where it controls only whether the auxiliary
agent process is spawned; the set of task-group units does not depend on
the option. -/
theorem c7_start_two_units : ∀ agent : Bool,
    (start_units agent).length = 2 ∧
    start_units agent = [SessionUnit.serverUnit false agent, SessionUnit.uiUnit] ∧
    (start_units agent).map unit_kind = [UnitKind.server, UnitKind.uiWatch] ∧
    unit_spawns_agent (SessionUnit.serverUnit false agent) = agent ∧
    unit_spawns_agent SessionUnit.uiUnit = false := by
  decide

/-- Claim C10: on a successful `build_ui`, the copy phase leaves the
static-UI path holding exactly the fresh build's files; a pre-existing
static directory is deleted in its entirety before the copy (the returned
flag records that a deletion happened), and when none exists nothing is
deleted and the copy still occurs. -/
theorem c10_copy_phase (s : FsState) :
    build_ui_copy_phase s =
      Except.ok ({ staticDir := some s.distDir, distDir := s.distDir }, s.staticDir.isSome) := by
  cases s with
  | mk st dist => cases st <;> simp [build_ui_copy_phase, copytree_to_static, Except.map]

/-- After `d[k] = v`, looking up `k` yields `v`. -/
theorem dictGet_dictSet_self (d : List (String × JVal)) (k : String) (v : JVal) :
    dictGet (dictSet d k v) k = some v := by
  unfold dictSet
  split
  · rename_i hany
    induction d with
    | nil => simp at hany
    | cons p ds ih =>
      by_cases hp : p.1 == k
      · simp [dictGet, List.find?, hp]
      · simp only [List.any_cons, Bool.or_eq_true] at hany
        rcases hany with hany | hany
        · exact absurd hany hp
        · simpa [dictGet, List.find?, hp] using ih hany
  · induction d with
    | nil => simp [dictGet, List.find?]
    | cons p ds ih =>
      rename_i hany
      simp only [List.any_cons, Bool.or_eq_true, not_or] at hany
      have hp : (p.1 == k) = false := by
        cases h : p.1 == k
        · rfl
        · exact absurd h hany.1
      have ih2 := ih (by simpa using hany.2)
      simpa [dictGet, List.find?, hp] using ih2

/-- Replacing the values at key `k` leaves lookups of any other key alone. -/
theorem dictGet_map_replace_ne (d : List (String × JVal)) (k k' : String) (v : JVal)
    (h : k' ≠ k) :
    dictGet (d.map (fun p => if p.1 == k then (k, v) else p)) k' = dictGet d k' := by
  induction d with
  | nil => rfl
  | cons p ds ih =>
    by_cases hp : p.1 == k
    · have hpk : p.1 = k := by simpa using hp
      have hne : (k == k') = false := by simp [Ne.symm h]
      have hne2 : (p.1 == k') = false := by simp [hpk, Ne.symm h]
      simpa [dictGet, List.find?, hp, hne, hne2] using ih
    · by_cases hq : p.1 == k'
      · simp [dictGet, List.find?, hp, hq]
      · simpa [dictGet, List.find?, hp, hq] using ih

/-- After `d[k] = v`, looking up any other key is unchanged. -/
theorem dictGet_dictSet_ne (d : List (String × JVal)) (k k' : String) (v : JVal)
    (h : k' ≠ k) :
    dictGet (dictSet d k v) k' = dictGet d k' := by
  unfold dictSet
  split
  · exact dictGet_map_replace_ne d k k' v h
  · unfold dictGet
    rw [List.find?_append]
    have hne : (k == k') = false := by simp [Ne.symm h]
    cases hf : List.find? (fun p => p.1 == k') d <;>
      simp [hf, List.find?, hne, Option.or]

/-- Claim C9: the JSON document `build_docs` writes equals the generated
OpenAPI schema except that the top-level `"info"` key is bound to the empty
object; every other top-level key is written unchanged; and with the
`schema_path` argument omitted (`None`) or empty, the file written is
`docs/api-ref/schema.json` under the project root. -/
theorem c9_build_docs (schema : List (String × JVal)) (root : String) (k : String)
    (hk : k ≠ "info") :
    dictGet (build_docs_written schema) "info" = some (JVal.obj []) ∧
    dictGet (build_docs_written schema) k = dictGet schema k ∧
    build_docs_path root none = root ++ "/docs/api-ref/schema.json" ∧
    build_docs_path root (some "") = root ++ "/docs/api-ref/schema.json" := by
  refine ⟨?_, ?_, rfl, rfl⟩
  · exact dictGet_dictSet_self schema "info" (JVal.obj [])
  · exact dictGet_dictSet_ne schema "info" k (JVal.obj []) hk

/-- Concrete run of claim C9's theorem on the sample schema and the
top-level key `"openapi"`. -/
theorem c9_witness :
    ("openapi" : String) ≠ "info" ∧
    (dictGet (build_docs_written sampleSchema) "info" = some (JVal.obj []) ∧
     dictGet (build_docs_written sampleSchema) "openapi" = dictGet sampleSchema "openapi" ∧
     build_docs_path "/repo" none = "/repo" ++ "/docs/api-ref/schema.json" ∧
     build_docs_path "/repo" (some "") = "/repo" ++ "/docs/api-ref/schema.json") :=
  ⟨by decide, c9_build_docs sampleSchema "/repo" "openapi" (by decide)⟩

/-- A cancelled-and-awaited sibling is never left running. -/
theorem siblingFinal_ne_running (t : Nat) (b : UnitBehavior) :
    siblingFinal t b ≠ UnitFinal.running := by
  cases b with
  | runsForever => simp [siblingFinal]
  | completes t' r =>
    cases r with
    | success => simp only [siblingFinal]; split <;> simp
    | failure c => simp only [siblingFinal]; split <;> simp

/-- A sibling of a failed unit ends cancelled or had already finished. -/
theorem siblingFinal_cases (t : Nat) (b : UnitBehavior) :
    siblingFinal t b = UnitFinal.cancelled ∨ siblingFinal t b = UnitFinal.succeeded ∨
    ∃ c, siblingFinal t b = UnitFinal.failed c := by
  cases b with
  | runsForever => exact Or.inl rfl
  | completes t' r =>
    cases r with
    | success =>
      simp only [siblingFinal]; split
      · exact Or.inr (Or.inl rfl)
      · exact Or.inl rfl
    | failure c =>
      simp only [siblingFinal]; split
      · exact Or.inr (Or.inr ⟨c, rfl⟩)
      · exact Or.inl rfl

/-- Claim C1: whenever the `start` command's task group returns control to
its caller, no unit it started is still live — both units are in a terminal
state — and when a unit's failure is surfaced, its sibling was cancelled or
had already finished (full fan-in before return), for any interleaving of
completions and failures of the two units. -/
theorem c1_full_fan_in (serverB uiB : UnitBehavior) (g : GroupReturn)
    (h : start_session serverB uiB = some g) :
    g.final1 ≠ UnitFinal.running ∧ g.final2 ≠ UnitFinal.running ∧
    (∀ c, g.err = some (1, c) →
      g.final2 = UnitFinal.cancelled ∨ g.final2 = UnitFinal.succeeded ∨
      ∃ c2, g.final2 = UnitFinal.failed c2) ∧
    (∀ c, g.err = some (2, c) →
      g.final1 = UnitFinal.cancelled ∨ g.final1 = UnitFinal.succeeded ∨
      ∃ c1, g.final1 = UnitFinal.failed c1) := by
  unfold start_session groupRun at h
  cases h1 : failsAt serverB with
  | none =>
    cases h2 : failsAt uiB with
    | none =>
      rw [h1, h2] at h
      cases serverB <;> cases uiB <;> simp_all
      subst h
      simp
    | some p2 =>
      rw [h1, h2] at h
      cases h
      refine ⟨siblingFinal_ne_running _ _, by simp, ?_, ?_⟩
      · intro c hc; simp at hc
      · intro c hc
        exact siblingFinal_cases _ _
  | some p1 =>
    cases h2 : failsAt uiB with
    | none =>
      rw [h1, h2] at h
      cases h
      refine ⟨by simp, siblingFinal_ne_running _ _, ?_, ?_⟩
      · intro c hc
        exact siblingFinal_cases _ _
      · intro c hc; simp at hc
    | some p2 =>
      rw [h1, h2] at h
      by_cases hle : p1.1 ≤ p2.1
      · simp only [hle, if_pos] at h
        cases h
        refine ⟨by simp, siblingFinal_ne_running _ _, ?_, ?_⟩
        · intro c hc
          exact siblingFinal_cases _ _
        · intro c hc; simp at hc
      · simp only [hle, if_neg, if_false] at h
        cases h
        refine ⟨siblingFinal_ne_running _ _, by simp, ?_, ?_⟩
        · intro c hc; simp at hc
        · intro c hc
          exact siblingFinal_cases _ _

/-- Concrete run of claim C1's theorem: the server unit fails at instant 5
with code 3 while the UI unit runs on; the group returns with the server
unit failed and the UI unit cancelled. -/
theorem c1_witness :
    start_session (UnitBehavior.completes 5 (UnitResult.failure 3)) UnitBehavior.runsForever =
      some ⟨UnitFinal.failed 3, UnitFinal.cancelled, some (1, 3)⟩ ∧
    ((UnitFinal.failed 3 : UnitFinal) ≠ UnitFinal.running ∧
     (UnitFinal.cancelled : UnitFinal) ≠ UnitFinal.running ∧
     (∀ c, (some (1, 3) : Option (Nat × Nat)) = some (1, c) →
       (UnitFinal.cancelled : UnitFinal) = UnitFinal.cancelled ∨
       (UnitFinal.cancelled : UnitFinal) = UnitFinal.succeeded ∨
       ∃ c2, (UnitFinal.cancelled : UnitFinal) = UnitFinal.failed c2) ∧
     (∀ c, (some (1, 3) : Option (Nat × Nat)) = some (2, c) →
       (UnitFinal.failed 3 : UnitFinal) = UnitFinal.cancelled ∨
       (UnitFinal.failed 3 : UnitFinal) = UnitFinal.succeeded ∨
       ∃ c1, (UnitFinal.failed 3 : UnitFinal) = UnitFinal.failed c1)) :=
  ⟨by decide,
   c1_full_fan_in (UnitBehavior.completes 5 (UnitResult.failure 3)) UnitBehavior.runsForever
     ⟨UnitFinal.failed 3, UnitFinal.cancelled, some (1, 3)⟩ (by decide)⟩

/-- Claim C2 fails as stated: a clean, zero-status exit of one unit does not
terminate the session.  With the UI unit returning normally at instant 0
(e.g. the watch process exits cleanly, `open_process_and_stream_output`
returns its exit code rather than raising) and the server unit running on,
`start`'s task group evaluates to `none`: the `async with` block keeps
waiting on the still-running server unit, so the session does not end and
the server unit is not stopped — against "if either of its two units exits
— including a clean, zero-status exit — the session terminates". -/
theorem c2_counterexample :
    start_session UnitBehavior.runsForever (UnitBehavior.completes 0 UnitResult.success) =
      none := rfl

/-- Claim C2 amended: if either unit of the `start` session exits by
raising a failure, the session terminates — the task group returns and
neither unit is left running (the sibling is cancelled or had already
finished).  A clean, zero-status exit of a unit does not by itself end the
session: the group keeps waiting on the other unit. -/
theorem c2_failure_ends_session (serverB uiB : UnitBehavior) (t c : Nat)
    (h : serverB = UnitBehavior.completes t (UnitResult.failure c) ∨
         uiB = UnitBehavior.completes t (UnitResult.failure c)) :
    ∃ g, start_session serverB uiB = some g ∧
      g.final1 ≠ UnitFinal.running ∧ g.final2 ≠ UnitFinal.running := by
  rcases h with h | h
  · subst h
    cases h2 : failsAt uiB with
    | none =>
      refine ⟨⟨UnitFinal.failed c, siblingFinal t uiB, some (1, c)⟩, ?_, ?_, ?_⟩
      · unfold start_session groupRun
        rw [h2]
        simp [failsAt]
      · simp
      · simpa using siblingFinal_ne_running t uiB
    | some p2 =>
      obtain ⟨t2, c2⟩ := p2
      by_cases hle : t ≤ t2
      · refine ⟨⟨UnitFinal.failed c, siblingFinal t uiB, some (1, c)⟩, ?_, ?_, ?_⟩
        · unfold start_session groupRun
          rw [h2]
          simp [failsAt, hle]
        · simp
        · simpa using siblingFinal_ne_running t uiB
      · refine ⟨⟨siblingFinal t2 (UnitBehavior.completes t (UnitResult.failure c)),
          UnitFinal.failed c2, some (2, c2)⟩, ?_, ?_, ?_⟩
        · unfold start_session groupRun
          rw [h2]
          simp [failsAt, hle]
        · simpa using siblingFinal_ne_running t2 (UnitBehavior.completes t (UnitResult.failure c))
        · simp
  · subst h
    cases h1 : failsAt serverB with
    | none =>
      refine ⟨⟨siblingFinal t serverB, UnitFinal.failed c, some (2, c)⟩, ?_, ?_, ?_⟩
      · unfold start_session groupRun
        rw [h1]
        simp [failsAt]
      · simpa using siblingFinal_ne_running t serverB
      · simp
    | some p1 =>
      obtain ⟨t1, c1⟩ := p1
      by_cases hle : t1 ≤ t
      · refine ⟨⟨UnitFinal.failed c1,
          siblingFinal t1 (UnitBehavior.completes t (UnitResult.failure c)), some (1, c1)⟩,
          ?_, ?_, ?_⟩
        · unfold start_session groupRun
          rw [h1]
          simp [failsAt, hle]
        · simp
        · simpa using siblingFinal_ne_running t1 (UnitBehavior.completes t (UnitResult.failure c))
      · refine ⟨⟨siblingFinal t serverB, UnitFinal.failed c, some (2, c)⟩, ?_, ?_, ?_⟩
        · unfold start_session groupRun
          rw [h1]
          simp [failsAt, hle]
        · simpa using siblingFinal_ne_running t serverB
        · simp

/-- Concrete run of claim C2's amended theorem: the UI unit raises with
code 7 at instant 1; the session's task group returns with no unit left
running. -/
theorem c2_witness :
    (UnitBehavior.runsForever = UnitBehavior.completes 1 (UnitResult.failure 7) ∨
     UnitBehavior.completes 1 (UnitResult.failure 7) =
       UnitBehavior.completes 1 (UnitResult.failure 7)) ∧
    ∃ g, start_session UnitBehavior.runsForever
        (UnitBehavior.completes 1 (UnitResult.failure 7)) = some g ∧
      g.final1 ≠ UnitFinal.running ∧ g.final2 ≠ UnitFinal.running :=
  ⟨Or.inr rfl,
   c2_failure_ends_session UnitBehavior.runsForever
     (UnitBehavior.completes 1 (UnitResult.failure 7)) 1 7 (Or.inr rfl)⟩

/-- Claim C8: whenever the `start` session's task group surfaces a unit
failure, the invocation reports which unit failed and with what exit code,
and the tool's own exit status is non-zero, reflecting that failure. -/
theorem c8_failure_reported (serverB uiB : UnitBehavior) (g : GroupReturn) (i c : Nat)
    (h1 : start_session serverB uiB = some g) (h2 : g.err = some (i, c)) :
    start_main serverB uiB = some (reportFailure i c) ∧
    (reportFailure i c).failedUnit = unitName i ∧
    (reportFailure i c).failedExitCode = c ∧
    (reportFailure i c).exitStatus ≠ 0 := by
  refine ⟨by simp [start_main, h1, h2], rfl, rfl, ?_⟩
  by_cases hc : c = 0 <;> simp [reportFailure, hc]

/-- Concrete run of claim C8's theorem: the server unit fails at instant 0
with code 3; the invocation reports the server unit and code 3 and exits
with status 3. -/
theorem c8_witness :
    start_session (UnitBehavior.completes 0 (UnitResult.failure 3)) UnitBehavior.runsForever =
      some ⟨UnitFinal.failed 3, UnitFinal.cancelled, some (1, 3)⟩ ∧
    (GroupReturn.mk (UnitFinal.failed 3) UnitFinal.cancelled (some (1, 3))).err = some (1, 3) ∧
    (start_main (UnitBehavior.completes 0 (UnitResult.failure 3)) UnitBehavior.runsForever =
       some (reportFailure 1 3) ∧
     (reportFailure 1 3).failedUnit = unitName 1 ∧
     (reportFailure 1 3).failedExitCode = 3 ∧
     (reportFailure 1 3).exitStatus ≠ 0) :=
  ⟨by decide, rfl,
   c8_failure_reported (UnitBehavior.completes 0 (UnitResult.failure 3))
     UnitBehavior.runsForever ⟨UnitFinal.failed 3, UnitFinal.cancelled, some (1, 3)⟩
     1 3 (by decide) rfl⟩
